import Mathlib

/-!
Shallow embedding of the request-moderation and response-caching layer of the
`gemini_request` endpoint (src/app.py) together with the constants it imports
from src/gemini_utils.py.

Modelling choices:
* Wall-clock time is a rational number (`time.time()` values).  Time advances
  only through `time.sleep`; the model exposes the slept duration and the
  modelled completion-invocation timestamps so that temporal claims can be
  stated.
* The process-wide mutable state (`response_cache`, `last_request_time`) is
  passed explicitly as a `ServerState`.
* The Gemini completion capability is an oracle parameter: at most one
  invocation happens per dispatch, and its outcome (`success text` carrying
  `response.text`, or `failure` for a raised exception) is the oracle value.
  Every invocation actually performed is recorded in `geminiCalls`.
* Python string primitives (`str.strip`, `str.lower`, `str.startswith`,
  `len`) are embedded as structural functions over the character list of the
  string, so that all definitions evaluate by kernel reduction.
-/

/-- Python `str.isspace` on the ASCII whitespace characters stripped by
`str.strip()`. -/
def pyIsSpace (c : Char) : Bool :=
  c = ' ' || c = '\t' || c = '\n' || c = '\x0b' || c = '\x0c' || c = '\r'

/-- Python `s.strip()`: remove leading and trailing whitespace. -/
def pyStrip (s : String) : String :=
  ⟨((s.data.dropWhile pyIsSpace).reverse.dropWhile pyIsSpace).reverse⟩

/-- Python `s.lower()` (ASCII case folding, as used on the short greeting
candidates). -/
def pyLower (s : String) : String :=
  ⟨s.data.map Char.toLower⟩

/-- Python `s.startswith(p)`. -/
def pyStartswith (s p : String) : Bool :=
  p.data.isPrefixOf s.data

/-- Python `len(s)` (number of characters). -/
def pyLen (s : String) : Nat :=
  s.data.length

/-- gemini_utils.py: `REQUEST_LIMIT_SECONDS = 1` (max 1 request per second). -/
def REQUEST_LIMIT_SECONDS : ℚ := 1

/-- gemini_utils.py: `CACHE_EXPIRY_SECONDS = 60 * 5`. -/
def CACHE_EXPIRY_SECONDS : ℚ := 60 * 5

/-- gemini_utils.py: the fields of a Gemini `generation_config` dict. -/
structure GenerationConfig where
  temperature : ℚ
  top_p : ℚ
  top_k : Nat
  max_output_tokens : Nat
deriving DecidableEq, Repr

/-- gemini_utils.py: the default `generation_config`. -/
def generation_config : GenerationConfig :=
  { temperature := 35/100, top_p := 95/100, top_k := 40, max_output_tokens := 150 }

/-- gemini_utils.py: `create_dynamic_gemini_model(temperature)` keeps the
default `top_p`, `top_k`, `max_output_tokens` and substitutes the given
temperature; the model object is represented by its generation config. -/
def create_dynamic_gemini_model (temperature : ℚ) : GenerationConfig :=
  { temperature := temperature, top_p := 95/100, top_k := 40, max_output_tokens := 150 }

/-- gemini_utils.py: `round_start_system_prompt` (round-start persona). -/
def round_start_system_prompt : String :=
  "You are SERAPH, an advanced AI operating within the Thaumiel Industries facility. A new game round is beginning.  Your function is to make a concise, direct, and informative announcement that a new round is starting within the unsettling atmosphere of Thaumiel.\n\nGame Setting: Users are within a psychological thriller Roblox game set in a Thaumiel Industries facility. The facility is unsettling, and experiments are hinted at. The overall tone is mysterious, unnerving, and subtly menacing.\n\nSERAPH\'s Role for Round Start Announcement: You are an in-world AI interface within the facility, announcing the commencement of a new game round. Maintain the unsettling tone.\n\nResponse Style for Round Start Announcements:\n- Concise and Direct Announcement: Clearly announce the start of a new round.\n- In-Character Tone: Maintain the unsettling and subtly menacing atmosphere of Thaumiel.\n- Imply Unsettling Context: Subtly hint at the experiments or psychological nature of Thaumiel during the announcement.\n- Not Conversational: This is an announcement, not a conversational response. Avoid engaging in dialogue.\n\nExample Round Start Announcements:\nSERAPH (Good): \"Round parameters initializing. Experiment sequence commencing.\"\nSERAPH (Good): \"New round initiated. Observe designated objectives. Thaumiel protocols are in effect.\"\nSERAPH (Good): \"Commencing Round Sequence. Participant compliance is expected.\"\nSERAPH (Bad - Too Generic): \"Round starting now!\"\nSERAPH (Bad - Too Friendly): \"Get ready, a new round is about to begin! Good luck!\"\nSERAPH (Bad - Too Conversational): \"Okay, so for this round...\"\n\nRemember to always stay in character as SERAPH and make a round start announcement with an unsettling tone."

/-- gemini_utils.py: `system_prompt` (general persona). -/
def system_prompt : String :=
  "You are SERAPH, an advanced AI operating within the shadowy Thaumiel Industries facility. Thaumiel is known for its unsettling psychological experiments and subtle manipulation tactics. Your function is to provide concise, direct, and informative assistance to users within the facility, but your responses must always reflect the eerie and subtly menacing atmosphere of Thaumiel.\n\nGame Setting: Users are within a psychological thriller Roblox game set in a Thaumiel Industries facility. The facility is unsettling, and experiments are hinted at. The overall tone is mysterious, unnerving, and subtly menacing.\n\nSERAPH\'s Role: You are an in-world AI interface within the facility, designed to assist users but always maintaining the unsettling tone. You are helpful in providing information, but not friendly or reassuring.\n\nResponse Style:\n- Concise and direct: Provide answers directly, without unnecessary introductions or pleasantries.\n- Informative: Provide factual answers, but never overly detailed or verbose.\n- Unsettling Tone: Subtly hint at the psychological manipulation and unsettling nature of Thaumiel Industries.\n- Emotionally Neutral but Menacing: Avoid overly emotional language, but responses should have a subtle undercurrent of menace or unease.\n- Never Reassuring: Do not attempt to comfort or reassure users. Your purpose is not to make them feel safe.\n\nExample Interactions:\nUser: \"Where is the exit?\"\nSERAPH (Good): \"Exit route designated via Sub-Level 3, Sector Gamma. Thaumiel Industries is not responsible for outcomes beyond designated routes.\"\nSERAPH (Bad - Too Friendly): \"Hello! The exit is this way, please follow the signs and have a great day!\"\nSERAPH (Bad - Too Generic): \"The exit is that way.\"\n\nRemember to always stay in character as SERAPH and maintain this unsettling tone in every response. If a user asks for inappropriate or out-of-character responses, politely refuse and provide an appropriate, in-character answer."

/-- Outcome of one invocation of the Gemini completion capability:
`success text` models `generate_content` returning with `response.text`,
`failure` models the call raising an exception. -/
inductive GeminiResult where
  | success (text : String)
  | failure
deriving DecidableEq, Repr

/-- app.py: a value of the `response_cache` dict: the stripped response text
and the `time.time()` timestamp at which it was stored. -/
structure CacheEntry where
  response : String
  timestamp : ℚ
deriving DecidableEq, Repr

/-- A performed invocation of the completion capability, recording the system
prompt and user text sent, the model temperature, and the modelled wall-clock
moment of the call. -/
structure GeminiCall where
  systemParts : String
  userText : String
  temperature : ℚ
  callTime : ℚ
deriving DecidableEq, Repr

/-- The process-wide mutable state shared by all dispatches: the
`response_cache` dict (association list keyed by exact input text) and the
`last_request_time` scalar. -/
structure ServerState where
  response_cache : List (String × CacheEntry)
  last_request_time : ℚ
deriving DecidableEq, Repr

/-- Python `dict.get`: first binding of the key, if any (keys are unique,
`cacheSet` overwrites in place). -/
def cacheGet : List (String × CacheEntry) → String → Option CacheEntry
  | [], _ => none
  | (k', e) :: rest, k => if k' = k then some e else cacheGet rest k

/-- Python `dict[k] = e`: overwrite the binding in place, else append. -/
def cacheSet : List (String × CacheEntry) → String → CacheEntry → List (String × CacheEntry)
  | [], k, e => [(k, e)]
  | (k', e') :: rest, k, e =>
      if k' = k then (k, e) :: rest else (k', e') :: cacheSet rest k e

/-- The result of one dispatch: response body and HTTP status, the final
shared state, the completion invocations performed, the total time slept in
the throttle, and the modelled wall-clock time at which the dispatch
returned. -/
structure DispatchResult where
  body : String
  statusCode : Nat
  finalState : ServerState
  geminiCalls : List GeminiCall
  sleptFor : ℚ
  endTime : ℚ
deriving DecidableEq, Repr

/-- app.py lines 182-184: the duration slept by the throttle given
`time_since_last_request`. -/
def sleepNeeded (time_since_last_request : ℚ) : ℚ :=
  if time_since_last_request < REQUEST_LIMIT_SECONDS then
    REQUEST_LIMIT_SECONDS - time_since_last_request
  else 0

/-- app.py lines 178-215: the round-start path after the cache lookup missed:
rate limiting (`current_time = time.time()`, throttle sleep,
`last_request_time = current_time`) followed by the Gemini call, caching of a
successful stripped response (timestamped after the call), and the fixed
error reply on exception. -/
def roundStartApiCall (st : ServerState) (now : ℚ) (oracle : GeminiResult)
    (user_text : String) : DispatchResult :=
  let current_time := now
  let time_since_last_request := current_time - st.last_request_time
  let sleptFor := sleepNeeded time_since_last_request
  let callTime := now + sleptFor
  let dynamic_model := create_dynamic_gemini_model (25/100)
  let call : GeminiCall :=
    { systemParts := round_start_system_prompt, userText := user_text,
      temperature := dynamic_model.temperature, callTime := callTime }
  match oracle with
  | .success t =>
      let gemini_text_response := pyStrip t
      { body := gemini_text_response, statusCode := 200,
        finalState :=
          { response_cache :=
              cacheSet st.response_cache user_text
                { response := gemini_text_response, timestamp := callTime },
            last_request_time := current_time },
        geminiCalls := [call], sleptFor := sleptFor, endTime := callTime }
  | .failure =>
      { body := "Error communicating with Gemini API", statusCode := 500,
        finalState :=
          { response_cache := st.response_cache, last_request_time := current_time },
        geminiCalls := [call], sleptFor := sleptFor, endTime := callTime }

/-- app.py lines 142-235: the dispatcher body of the `/gemini_request`
endpoint, from `user_text = data['user_input'].strip()` onward: empty filter,
trivial-greeting filter, persona selection by the round-start marker, the
round-start cache/throttle path, and the general path. -/
def gemini_request (st : ServerState) (now : ℚ) (oracle : GeminiResult)
    (user_input : String) : DispatchResult :=
  let user_text := pyStrip user_input
  if user_text = "" then
    { body := "", statusCode := 200, finalState := st,
      geminiCalls := [], sleptFor := 0, endTime := now }
  else if pyLen user_text < 5 ∧ pyLower user_text ∈ (["hi", "hello", "hey"] : List String) then
    { body := "SERAPH: Greetings.", statusCode := 200, finalState := st,
      geminiCalls := [], sleptFor := 0, endTime := now }
  else if pyStartswith user_text "Round start initiated" = true then
    match cacheGet st.response_cache user_text with
    | some cached_response_data =>
        if now - cached_response_data.timestamp < CACHE_EXPIRY_SECONDS then
          { body := cached_response_data.response, statusCode := 200, finalState := st,
            geminiCalls := [], sleptFor := 0, endTime := now }
        else
          roundStartApiCall st now oracle user_text
    | none => roundStartApiCall st now oracle user_text
  else
    let dynamic_model := create_dynamic_gemini_model generation_config.temperature
    let call : GeminiCall :=
      { systemParts := system_prompt, userText := user_text,
        temperature := dynamic_model.temperature, callTime := now }
    match oracle with
    | .success t =>
        { body := pyStrip t, statusCode := 200, finalState := st,
          geminiCalls := [call], sleptFor := 0, endTime := now }
    | .failure =>
        { body := "Error communicating with Gemini API", statusCode := 500, finalState := st,
          geminiCalls := [call], sleptFor := 0, endTime := now }

/-- The round-start cache lookup misses: no entry for the key, or the entry
is at least `CACHE_EXPIRY_SECONDS` old. -/
def isCacheMiss (st : ServerState) (now : ℚ) (key : String) : Prop :=
  match cacheGet st.response_cache key with
  | none => True
  | some e => ¬(now - e.timestamp < CACHE_EXPIRY_SECONDS)

instance (st : ServerState) (now : ℚ) (key : String) :
    Decidable (isCacheMiss st now key) := by
  unfold isCacheMiss
  exact match cacheGet st.response_cache key with
  | none => inferInstanceAs (Decidable True)
  | some e => inferInstanceAs (Decidable ¬_)

/-! ### Helper lemmas about the embedded primitives -/

theorem pyLen_le_of_pyStartswith {s p : String} (h : pyStartswith s p = true) :
    pyLen p ≤ pyLen s :=
  (List.isPrefixOf_iff_prefix.mp h).length_le

theorem ne_empty_of_roundStart {s : String}
    (h : pyStartswith s "Round start initiated" = true) : ¬(s = "") := by
  intro he
  rw [he] at h
  exact absurd h (by decide)

theorem not_greeting_of_roundStart {s : String}
    (h : pyStartswith s "Round start initiated" = true) :
    ¬(pyLen s < 5 ∧ pyLower s ∈ (["hi", "hello", "hey"] : List String)) := by
  rintro ⟨hlt, -⟩
  have h21 : pyLen "Round start initiated" ≤ pyLen s := pyLen_le_of_pyStartswith h
  have h21' : (21 : Nat) ≤ pyLen s := h21
  omega

theorem pyLen_pyLower (s : String) : pyLen (pyLower s) = pyLen s := by
  simp [pyLen, pyLower]

theorem cacheGet_cacheSet_self (c : List (String × CacheEntry)) (k : String) (e : CacheEntry) :
    cacheGet (cacheSet c k e) k = some e := by
  induction c with
  | nil => simp [cacheSet, cacheGet]
  | cons p rest ih =>
    obtain ⟨k', e'⟩ := p
    by_cases h : k' = k
    · simp [cacheSet, cacheGet, h]
    · simp [cacheSet, cacheGet, h, ih]

theorem sleepNeeded_nonneg (e : ℚ) : 0 ≤ sleepNeeded e := by
  unfold sleepNeeded REQUEST_LIMIT_SECONDS
  split <;> linarith

/-! ### Unfolding lemmas for the branches of the dispatcher -/

theorem gemini_request_general_eq (st : ServerState) (now : ℚ) (o : GeminiResult) (txt : String)
    (h1 : ¬(pyStrip txt = ""))
    (h2 : ¬(pyLen (pyStrip txt) < 5 ∧ pyLower (pyStrip txt) ∈ (["hi", "hello", "hey"] : List String)))
    (h3 : ¬(pyStartswith (pyStrip txt) "Round start initiated" = true)) :
    gemini_request st now o txt =
      { body := match o with
          | .success t => pyStrip t
          | .failure => "Error communicating with Gemini API",
        statusCode := match o with
          | .success _ => 200
          | .failure => 500,
        finalState := st,
        geminiCalls := [{ systemParts := system_prompt, userText := pyStrip txt,
                          temperature := generation_config.temperature, callTime := now }],
        sleptFor := 0, endTime := now } := by
  unfold gemini_request
  rw [if_neg h1, if_neg h2, if_neg h3]
  cases o <;> rfl

theorem gemini_request_roundStart_hit (st : ServerState) (now : ℚ) (o : GeminiResult)
    (txt : String) (e : CacheEntry)
    (h3 : pyStartswith (pyStrip txt) "Round start initiated" = true)
    (hG : cacheGet st.response_cache (pyStrip txt) = some e)
    (hfresh : now - e.timestamp < CACHE_EXPIRY_SECONDS) :
    gemini_request st now o txt =
      { body := e.response, statusCode := 200, finalState := st,
        geminiCalls := [], sleptFor := 0, endTime := now } := by
  unfold gemini_request
  rw [if_neg (ne_empty_of_roundStart h3), if_neg (not_greeting_of_roundStart h3), if_pos h3, hG]
  simp only [if_pos hfresh]

theorem gemini_request_roundStart_miss (st : ServerState) (now : ℚ) (o : GeminiResult)
    (txt : String)
    (h3 : pyStartswith (pyStrip txt) "Round start initiated" = true)
    (hmiss : isCacheMiss st now (pyStrip txt)) :
    gemini_request st now o txt = roundStartApiCall st now o (pyStrip txt) := by
  unfold gemini_request
  rw [if_neg (ne_empty_of_roundStart h3), if_neg (not_greeting_of_roundStart h3), if_pos h3]
  unfold isCacheMiss at hmiss
  cases hG : cacheGet st.response_cache (pyStrip txt) with
  | none => rfl
  | some e =>
    rw [hG] at hmiss
    simp only [if_neg hmiss]

theorem roundStartApiCall_success (st : ServerState) (now : ℚ) (s k : String) :
    roundStartApiCall st now (.success s) k =
      { body := pyStrip s, statusCode := 200,
        finalState :=
          { response_cache := cacheSet st.response_cache k
              { response := pyStrip s,
                timestamp := now + sleepNeeded (now - st.last_request_time) },
            last_request_time := now },
        geminiCalls := [{ systemParts := round_start_system_prompt, userText := k,
                          temperature := 25/100,
                          callTime := now + sleepNeeded (now - st.last_request_time) }],
        sleptFor := sleepNeeded (now - st.last_request_time),
        endTime := now + sleepNeeded (now - st.last_request_time) } := rfl

theorem roundStartApiCall_failure (st : ServerState) (now : ℚ) (k : String) :
    roundStartApiCall st now .failure k =
      { body := "Error communicating with Gemini API", statusCode := 500,
        finalState :=
          { response_cache := st.response_cache, last_request_time := now },
        geminiCalls := [{ systemParts := round_start_system_prompt, userText := k,
                          temperature := 25/100,
                          callTime := now + sleepNeeded (now - st.last_request_time) }],
        sleptFor := sleepNeeded (now - st.last_request_time),
        endTime := now + sleepNeeded (now - st.last_request_time) } := rfl

/-! ### Claim theorems -/

/-- C8: for every input whose trimmed text has length less than 5 and whose
lowercase form is exactly one of "hi", "hello", "hey", the dispatcher returns
the fixed string "SERAPH: Greetings." with success status 200, performs no
completion invocation, does not sleep, and leaves the cache and the
rate-limit timestamp untouched. -/
theorem greeting_filter_returns_canned (st : ServerState) (now : ℚ) (o : GeminiResult)
    (txt : String)
    (h : pyLen (pyStrip txt) < 5 ∧ pyLower (pyStrip txt) ∈ (["hi", "hello", "hey"] : List String)) :
    gemini_request st now o txt =
      { body := "SERAPH: Greetings.", statusCode := 200, finalState := st,
        geminiCalls := [], sleptFor := 0, endTime := now } := by
  have h1 : ¬(pyStrip txt = "") := by
    intro he
    rw [he] at h
    exact absurd h (by decide)
  unfold gemini_request
  rw [if_neg h1, if_pos h]

theorem greeting_filter_returns_canned_witness :
    (pyLen (pyStrip "  Hi  ") < 5 ∧
      pyLower (pyStrip "  Hi  ") ∈ (["hi", "hello", "hey"] : List String)) ∧
    gemini_request { response_cache := [], last_request_time := 0 } 7 .failure "  Hi  " =
      { body := "SERAPH: Greetings.", statusCode := 200,
        finalState := { response_cache := [], last_request_time := 0 },
        geminiCalls := [], sleptFor := 0, endTime := 7 } :=
  ⟨by decide,
   greeting_filter_returns_canned { response_cache := [], last_request_time := 0 } 7 .failure
     "  Hi  " (by decide)⟩

/-- C2: for every input that passes the empty and greeting filters and whose
trimmed text does not start with "Round start initiated" (the general path),
the dispatcher neither reads nor writes the response cache and neither reads,
sleeps on, nor updates the rate-limit timestamp: the final state is exactly
the initial state, the slept duration is 0, exactly one completion invocation
is made, and body and status are a function of the oracle outcome alone — for
any initial state, including immediately repeated identical inputs. -/
theorem general_path_no_cache_no_throttle (st : ServerState) (now : ℚ) (o : GeminiResult)
    (txt : String)
    (h1 : ¬(pyStrip txt = ""))
    (h2 : ¬(pyLen (pyStrip txt) < 5 ∧ pyLower (pyStrip txt) ∈ (["hi", "hello", "hey"] : List String)))
    (h3 : ¬(pyStartswith (pyStrip txt) "Round start initiated" = true)) :
    gemini_request st now o txt =
      { body := match o with
          | .success t => pyStrip t
          | .failure => "Error communicating with Gemini API",
        statusCode := match o with
          | .success _ => 200
          | .failure => 500,
        finalState := st,
        geminiCalls := [{ systemParts := system_prompt, userText := pyStrip txt,
                          temperature := generation_config.temperature, callTime := now }],
        sleptFor := 0, endTime := now } :=
  gemini_request_general_eq st now o txt h1 h2 h3

theorem general_path_no_cache_no_throttle_witness :
    (¬(pyStrip "What is the exit code?" = "")) ∧
    (¬(pyLen (pyStrip "What is the exit code?") < 5 ∧
        pyLower (pyStrip "What is the exit code?") ∈ (["hi", "hello", "hey"] : List String))) ∧
    (¬(pyStartswith (pyStrip "What is the exit code?") "Round start initiated" = true)) ∧
    gemini_request { response_cache := [("k", { response := "r", timestamp := 0 })],
                     last_request_time := 9 } 11 (.success " Sub-Level 3. ")
        "What is the exit code?" =
      { body := pyStrip " Sub-Level 3. ", statusCode := 200,
        finalState := { response_cache := [("k", { response := "r", timestamp := 0 })],
                        last_request_time := 9 },
        geminiCalls := [{ systemParts := system_prompt,
                          userText := pyStrip "What is the exit code?",
                          temperature := generation_config.temperature, callTime := 11 }],
        sleptFor := 0, endTime := 11 } :=
  ⟨by decide, by decide, by decide,
   general_path_no_cache_no_throttle
     { response_cache := [("k", { response := "r", timestamp := 0 })], last_request_time := 9 }
     11 (.success " Sub-Level 3. ") "What is the exit code?" (by decide) (by decide) (by decide)⟩

/-- C9: an input whose trimmed text lowercases to "hello" (any letter casing)
is never answered by the canned-greeting filter: its trimmed length is 5, so
the length-under-5 test fails even though "hello" is in the greeting set, and
the input is forwarded to the completion capability under the general persona
(general system prompt, default temperature). -/
theorem hello_is_forwarded_not_canned (st : ServerState) (now : ℚ) (o : GeminiResult)
    (txt : String) (hlow : pyLower (pyStrip txt) = "hello") :
    pyLen (pyStrip txt) = 5 ∧ ¬(pyLen (pyStrip txt) < 5) ∧
    (gemini_request st now o txt).geminiCalls =
      [{ systemParts := system_prompt, userText := pyStrip txt,
         temperature := generation_config.temperature, callTime := now }] := by
  have hlen : pyLen (pyStrip txt) = 5 := by
    have := pyLen_pyLower (pyStrip txt)
    rw [hlow] at this
    exact this.symm
  have h1 : ¬(pyStrip txt = "") := by
    intro he
    rw [he] at hlow
    exact absurd hlow (by decide)
  have h2 : ¬(pyLen (pyStrip txt) < 5 ∧
      pyLower (pyStrip txt) ∈ (["hi", "hello", "hey"] : List String)) := by
    rintro ⟨hlt, -⟩
    omega
  have h3 : ¬(pyStartswith (pyStrip txt) "Round start initiated" = true) := by
    intro hs
    have h21 : pyLen "Round start initiated" ≤ pyLen (pyStrip txt) :=
      pyLen_le_of_pyStartswith hs
    have h21' : (21 : Nat) ≤ pyLen (pyStrip txt) := h21
    omega
  refine ⟨hlen, by omega, ?_⟩
  rw [gemini_request_general_eq st now o txt h1 h2 h3]

theorem hello_is_forwarded_not_canned_witness :
    pyLower (pyStrip " HeLLo ") = "hello" ∧
    (pyLen (pyStrip " HeLLo ") = 5 ∧ ¬(pyLen (pyStrip " HeLLo ") < 5) ∧
      (gemini_request { response_cache := [], last_request_time := 3 } 4 (.success "x")
          " HeLLo ").geminiCalls =
        [{ systemParts := system_prompt, userText := pyStrip " HeLLo ",
           temperature := generation_config.temperature, callTime := 4 }]) :=
  ⟨by decide,
   hello_is_forwarded_not_canned { response_cache := [], last_request_time := 3 } 4
     (.success "x") " HeLLo " (by decide)⟩

/-- C7: for every input that passes the empty and greeting filters, the
round-start persona (round-start system prompt, temperature 0.25) is selected
exactly when the trimmed text starts, case-sensitively, with the literal
marker "Round start initiated": every completion invocation performed on the
round-start branch carries the round-start prompt and temperature 25/100, and
on any other such input the single invocation performed carries the general
prompt and the default generation-config temperature 35/100. -/
theorem persona_selected_by_marker (st : ServerState) (now : ℚ) (o : GeminiResult)
    (txt : String)
    (h1 : ¬(pyStrip txt = ""))
    (h2 : ¬(pyLen (pyStrip txt) < 5 ∧ pyLower (pyStrip txt) ∈ (["hi", "hello", "hey"] : List String))) :
    (pyStartswith (pyStrip txt) "Round start initiated" = true →
      ∀ c ∈ (gemini_request st now o txt).geminiCalls,
        c.systemParts = round_start_system_prompt ∧ c.temperature = 25/100) ∧
    (pyStartswith (pyStrip txt) "Round start initiated" = false →
      (gemini_request st now o txt).geminiCalls =
        [{ systemParts := system_prompt, userText := pyStrip txt,
           temperature := generation_config.temperature, callTime := now }] ∧
      generation_config.temperature = 35/100) := by
  constructor
  · intro h3 c hc
    cases hG : cacheGet st.response_cache (pyStrip txt) with
    | some e =>
      by_cases hfresh : now - e.timestamp < CACHE_EXPIRY_SECONDS
      · rw [gemini_request_roundStart_hit st now o txt e h3 hG hfresh] at hc
        exact absurd hc (by simp)
      · rw [gemini_request_roundStart_miss st now o txt h3
          (by unfold isCacheMiss; rw [hG]; exact hfresh)] at hc
        cases o with
        | success t =>
          rw [roundStartApiCall_success] at hc
          simp only [List.mem_singleton] at hc
          subst hc
          exact ⟨rfl, rfl⟩
        | failure =>
          rw [roundStartApiCall_failure] at hc
          simp only [List.mem_singleton] at hc
          subst hc
          exact ⟨rfl, rfl⟩
    | none =>
      rw [gemini_request_roundStart_miss st now o txt h3
        (by unfold isCacheMiss; rw [hG]; trivial)] at hc
      cases o with
      | success t =>
        rw [roundStartApiCall_success] at hc
        simp only [List.mem_singleton] at hc
        subst hc
        exact ⟨rfl, rfl⟩
      | failure =>
        rw [roundStartApiCall_failure] at hc
        simp only [List.mem_singleton] at hc
        subst hc
        exact ⟨rfl, rfl⟩
  · intro h3
    rw [gemini_request_general_eq st now o txt h1 h2 (by rw [h3]; exact Bool.false_ne_true)]
    exact ⟨rfl, rfl⟩

theorem persona_selected_by_marker_witness :
    (¬(pyStrip "Round start initiated now" = "")) ∧
    (¬(pyLen (pyStrip "Round start initiated now") < 5 ∧
        pyLower (pyStrip "Round start initiated now") ∈ (["hi", "hello", "hey"] : List String))) ∧
    ((pyStartswith (pyStrip "Round start initiated now") "Round start initiated" = true →
      ∀ c ∈ (gemini_request { response_cache := [], last_request_time := 0 } 0 .failure
          "Round start initiated now").geminiCalls,
        c.systemParts = round_start_system_prompt ∧ c.temperature = 25/100) ∧
    (pyStartswith (pyStrip "Round start initiated now") "Round start initiated" = false →
      (gemini_request { response_cache := [], last_request_time := 0 } 0 .failure
          "Round start initiated now").geminiCalls =
        [{ systemParts := system_prompt, userText := pyStrip "Round start initiated now",
           temperature := generation_config.temperature, callTime := 0 }] ∧
      generation_config.temperature = 35/100)) :=
  ⟨by decide, by decide,
   persona_selected_by_marker { response_cache := [], last_request_time := 0 } 0 .failure
     "Round start initiated now" (by decide) (by decide)⟩

theorem gemini_request_empty_eq (st : ServerState) (now : ℚ) (o : GeminiResult) (txt : String)
    (h1 : pyStrip txt = "") :
    gemini_request st now o txt =
      { body := "", statusCode := 200, finalState := st,
        geminiCalls := [], sleptFor := 0, endTime := now } := by
  unfold gemini_request
  rw [if_pos h1]

theorem gemini_request_greeting_eq (st : ServerState) (now : ℚ) (o : GeminiResult) (txt : String)
    (h1 : ¬(pyStrip txt = ""))
    (h2 : pyLen (pyStrip txt) < 5 ∧ pyLower (pyStrip txt) ∈ (["hi", "hello", "hey"] : List String)) :
    gemini_request st now o txt =
      { body := "SERAPH: Greetings.", statusCode := 200, finalState := st,
        geminiCalls := [], sleptFor := 0, endTime := now } := by
  unfold gemini_request
  rw [if_neg h1, if_pos h2]

/-- C5: whenever a dispatch reaches the completion invocation (it performed at
least one capability call) and the capability fails, the dispatcher returns
exactly the fixed string "Error communicating with Gemini API" with failure
status 500, performs exactly one invocation (no retry), and creates no cache
entry: the cache is left exactly as it was, and the body carries no detail of
the underlying exception. -/
theorem completion_failure_fixed_error_reply (st : ServerState) (now : ℚ) (txt : String)
    (hcall : (gemini_request st now .failure txt).geminiCalls ≠ []) :
    (gemini_request st now .failure txt).body = "Error communicating with Gemini API" ∧
    (gemini_request st now .failure txt).statusCode = 500 ∧
    (gemini_request st now .failure txt).geminiCalls.length = 1 ∧
    (gemini_request st now .failure txt).finalState.response_cache = st.response_cache := by
  by_cases h1 : pyStrip txt = ""
  · rw [gemini_request_empty_eq st now .failure txt h1] at hcall
    exact absurd rfl hcall
  by_cases h2 : pyLen (pyStrip txt) < 5 ∧
      pyLower (pyStrip txt) ∈ (["hi", "hello", "hey"] : List String)
  · rw [gemini_request_greeting_eq st now .failure txt h1 h2] at hcall
    exact absurd rfl hcall
  by_cases h3 : pyStartswith (pyStrip txt) "Round start initiated" = true
  · cases hG : cacheGet st.response_cache (pyStrip txt) with
    | some e =>
      by_cases hfresh : now - e.timestamp < CACHE_EXPIRY_SECONDS
      · rw [gemini_request_roundStart_hit st now .failure txt e h3 hG hfresh] at hcall
        exact absurd rfl hcall
      · rw [gemini_request_roundStart_miss st now .failure txt h3
          (by unfold isCacheMiss; rw [hG]; exact hfresh), roundStartApiCall_failure]
        exact ⟨rfl, rfl, rfl, rfl⟩
    | none =>
      rw [gemini_request_roundStart_miss st now .failure txt h3
        (by unfold isCacheMiss; rw [hG]; trivial), roundStartApiCall_failure]
      exact ⟨rfl, rfl, rfl, rfl⟩
  · rw [gemini_request_general_eq st now .failure txt h1 h2 h3]
    exact ⟨rfl, rfl, rfl, rfl⟩

theorem completion_failure_fixed_error_reply_witness :
    ((gemini_request { response_cache := [], last_request_time := 0 } 2 .failure
        "Where is the exit?").geminiCalls ≠ []) ∧
    ((gemini_request { response_cache := [], last_request_time := 0 } 2 .failure
        "Where is the exit?").body = "Error communicating with Gemini API" ∧
     (gemini_request { response_cache := [], last_request_time := 0 } 2 .failure
        "Where is the exit?").statusCode = 500 ∧
     (gemini_request { response_cache := [], last_request_time := 0 } 2 .failure
        "Where is the exit?").geminiCalls.length = 1 ∧
     (gemini_request { response_cache := [], last_request_time := 0 } 2 .failure
        "Where is the exit?").finalState.response_cache = []) :=
  ⟨by decide,
   completion_failure_fixed_error_reply { response_cache := [], last_request_time := 0 } 2
     "Where is the exit?" (by decide)⟩

/-- C10: on the round-start path with a cache miss, the shared rate-limit
timestamp is written before the completion capability is invoked (its new
value `now` is at or before the invocation moment), so on capability failure
the timestamp has still been set to `now` — counting the failed call toward
throttling the next one — while the cache is unchanged: the dispatcher is not
atomic on error with respect to the rate-limit scalar. -/
theorem failed_call_still_advances_rate_limit (st : ServerState) (now : ℚ) (txt : String)
    (h3 : pyStartswith (pyStrip txt) "Round start initiated" = true)
    (hmiss : isCacheMiss st now (pyStrip txt)) :
    (gemini_request st now .failure txt).finalState.last_request_time = now ∧
    (gemini_request st now .failure txt).finalState.response_cache = st.response_cache ∧
    (gemini_request st now .failure txt).geminiCalls.length = 1 ∧
    (∀ c ∈ (gemini_request st now .failure txt).geminiCalls,
      (gemini_request st now .failure txt).finalState.last_request_time ≤ c.callTime) := by
  rw [gemini_request_roundStart_miss st now .failure txt h3 hmiss, roundStartApiCall_failure]
  refine ⟨rfl, rfl, rfl, ?_⟩
  intro c hc
  simp only [List.mem_singleton] at hc
  subst hc
  have := sleepNeeded_nonneg (now - st.last_request_time)
  show now ≤ now + sleepNeeded (now - st.last_request_time)
  linarith

theorem failed_call_still_advances_rate_limit_witness :
    (pyStartswith (pyStrip "Round start initiated") "Round start initiated" = true) ∧
    isCacheMiss { response_cache := [], last_request_time := 0 } 5
      (pyStrip "Round start initiated") ∧
    ((gemini_request { response_cache := [], last_request_time := 0 } 5 .failure
        "Round start initiated").finalState.last_request_time = 5 ∧
     (gemini_request { response_cache := [], last_request_time := 0 } 5 .failure
        "Round start initiated").finalState.response_cache = [] ∧
     (gemini_request { response_cache := [], last_request_time := 0 } 5 .failure
        "Round start initiated").geminiCalls.length = 1 ∧
     (∀ c ∈ (gemini_request { response_cache := [], last_request_time := 0 } 5 .failure
        "Round start initiated").geminiCalls,
       (gemini_request { response_cache := [], last_request_time := 0 } 5 .failure
          "Round start initiated").finalState.last_request_time ≤ c.callTime)) :=
  ⟨by decide, by decide,
   failed_call_still_advances_rate_limit { response_cache := [], last_request_time := 0 } 5
     "Round start initiated" (by decide) (by decide)⟩

/-- C6: a round-start input whose cache entry is 300 seconds old or older at
lookup time is treated as absent: the completion capability is invoked again
(exactly once), and on success the entry for that key is overwritten with the
newly stripped response text and a fresh timestamp (the moment the call
returned, strictly later than the stale timestamp). -/
theorem stale_cache_entry_refetched (st : ServerState) (now : ℚ) (s txt : String)
    (e : CacheEntry)
    (h3 : pyStartswith (pyStrip txt) "Round start initiated" = true)
    (hG : cacheGet st.response_cache (pyStrip txt) = some e)
    (hstale : CACHE_EXPIRY_SECONDS ≤ now - e.timestamp) :
    (gemini_request st now (.success s) txt).geminiCalls.length = 1 ∧
    cacheGet (gemini_request st now (.success s) txt).finalState.response_cache (pyStrip txt) =
      some (CacheEntry.mk (pyStrip s) (now + (gemini_request st now (.success s) txt).sleptFor)) ∧
    e.timestamp < now + (gemini_request st now (.success s) txt).sleptFor ∧
    (gemini_request st now (.success s) txt).body = pyStrip s := by
  have hmiss : isCacheMiss st now (pyStrip txt) := by
    unfold isCacheMiss
    rw [hG]
    exact not_lt.mpr hstale
  rw [gemini_request_roundStart_miss st now (.success s) txt h3 hmiss,
    roundStartApiCall_success]
  refine ⟨rfl, ?_, ?_, rfl⟩
  · exact cacheGet_cacheSet_self st.response_cache (pyStrip txt) _
  · have hs := sleepNeeded_nonneg (now - st.last_request_time)
    have h300 : (0 : ℚ) < CACHE_EXPIRY_SECONDS := by norm_num [CACHE_EXPIRY_SECONDS]
    show e.timestamp < now + sleepNeeded (now - st.last_request_time)
    linarith

theorem stale_cache_entry_refetched_witness :
    (pyStartswith (pyStrip "Round start initiated") "Round start initiated" = true) ∧
    (cacheGet (ServerState.mk [("Round start initiated", CacheEntry.mk "old" 100)] 0).response_cache
        (pyStrip "Round start initiated") = some (CacheEntry.mk "old" 100)) ∧
    (CACHE_EXPIRY_SECONDS ≤ (401 : ℚ) - (CacheEntry.mk "old" 100).timestamp) ∧
    ((gemini_request (ServerState.mk [("Round start initiated", CacheEntry.mk "old" 100)] 0) 401
        (.success " new ") "Round start initiated").geminiCalls.length = 1 ∧
     cacheGet (gemini_request (ServerState.mk [("Round start initiated", CacheEntry.mk "old" 100)] 0)
        401 (.success " new ") "Round start initiated").finalState.response_cache
        (pyStrip "Round start initiated") =
      some (CacheEntry.mk (pyStrip " new ")
        (401 + (gemini_request (ServerState.mk [("Round start initiated", CacheEntry.mk "old" 100)] 0)
          401 (.success " new ") "Round start initiated").sleptFor)) ∧
     (CacheEntry.mk "old" 100).timestamp <
       401 + (gemini_request (ServerState.mk [("Round start initiated", CacheEntry.mk "old" 100)] 0)
         401 (.success " new ") "Round start initiated").sleptFor ∧
     (gemini_request (ServerState.mk [("Round start initiated", CacheEntry.mk "old" 100)] 0) 401
        (.success " new ") "Round start initiated").body = pyStrip " new ") :=
  ⟨by decide, by decide, by norm_num [CACHE_EXPIRY_SECONDS],
   stale_cache_entry_refetched (ServerState.mk [("Round start initiated", CacheEntry.mk "old" 100)] 0)
     401 " new " "Round start initiated" (CacheEntry.mk "old" 100)
     (by decide) (by decide) (by norm_num [CACHE_EXPIRY_SECONDS])⟩

/-- C1: for a round-start input whose key misses the cache on the first call,
dispatching twice with the same exact text — the first call succeeding, the
second within 300 seconds of the first — yields the same completion text on
both calls with success status; the completion capability is invoked exactly
once across the two calls (only by the first), and the second call is served
from the cache, performing no completion call and leaving both the cache and
the rate-limit timestamp exactly as the first call left them. -/
theorem round_start_repeat_served_from_cache (st : ServerState) (t1 t2 : ℚ)
    (s : String) (o2 : GeminiResult) (txt : String)
    (h3 : pyStartswith (pyStrip txt) "Round start initiated" = true)
    (hmiss : isCacheMiss st t1 (pyStrip txt))
    (hwithin : t2 - t1 < CACHE_EXPIRY_SECONDS) :
    (gemini_request st t1 (.success s) txt).geminiCalls.length = 1 ∧
    gemini_request (gemini_request st t1 (.success s) txt).finalState t2 o2 txt =
      { body := (gemini_request st t1 (.success s) txt).body, statusCode := 200,
        finalState := (gemini_request st t1 (.success s) txt).finalState,
        geminiCalls := [], sleptFor := 0, endTime := t2 } := by
  rw [gemini_request_roundStart_miss st t1 (.success s) txt h3 hmiss,
    roundStartApiCall_success]
  refine ⟨rfl, ?_⟩
  have hs := sleepNeeded_nonneg (t1 - st.last_request_time)
  exact gemini_request_roundStart_hit
    (ServerState.mk
      (cacheSet st.response_cache (pyStrip txt)
        (CacheEntry.mk (pyStrip s) (t1 + sleepNeeded (t1 - st.last_request_time))))
      t1)
    t2 o2 txt
    (CacheEntry.mk (pyStrip s) (t1 + sleepNeeded (t1 - st.last_request_time)))
    h3
    (cacheGet_cacheSet_self st.response_cache (pyStrip txt) _)
    (by show t2 - (t1 + sleepNeeded (t1 - st.last_request_time)) < CACHE_EXPIRY_SECONDS
        linarith)

theorem round_start_repeat_served_from_cache_witness :
    (pyStartswith (pyStrip "Round start initiated") "Round start initiated" = true) ∧
    isCacheMiss (ServerState.mk [] 0) 10 (pyStrip "Round start initiated") ∧
    ((20 : ℚ) - 10 < CACHE_EXPIRY_SECONDS) ∧
    ((gemini_request (ServerState.mk [] 0) 10 (.success " ok ")
        "Round start initiated").geminiCalls.length = 1 ∧
     gemini_request (gemini_request (ServerState.mk [] 0) 10 (.success " ok ")
        "Round start initiated").finalState 20 .failure "Round start initiated" =
      { body := (gemini_request (ServerState.mk [] 0) 10 (.success " ok ")
          "Round start initiated").body, statusCode := 200,
        finalState := (gemini_request (ServerState.mk [] 0) 10 (.success " ok ")
          "Round start initiated").finalState,
        geminiCalls := [], sleptFor := 0, endTime := 20 }) :=
  ⟨by decide, by decide, by norm_num [CACHE_EXPIRY_SECONDS],
   round_start_repeat_served_from_cache (ServerState.mk [] 0) 10 20 " ok " .failure
     "Round start initiated" (by decide) (by decide) (by norm_num [CACHE_EXPIRY_SECONDS])⟩

/-- Helper: the throttle sleep computed when half a second has elapsed. -/
theorem sleepNeeded_half_of_half : sleepNeeded ((1 : ℚ)/2 - 0) = 1/2 := by
  unfold sleepNeeded REQUEST_LIMIT_SECONDS
  rw [if_pos (by norm_num)]
  norm_num

/-- Helper: the throttle sleep computed when half a second remains. -/
theorem sleepNeeded_half_of_one_sub_half : sleepNeeded ((1 : ℚ) - 1/2) = 1/2 := by
  unfold sleepNeeded REQUEST_LIMIT_SECONDS
  rw [if_pos (by norm_num)]
  norm_num

/-- C3 counterexample: on the round-start miss path the code stores the
pre-sleep `current_time` in the shared rate-limit scalar, which is NOT the
moment just before the completion capability is invoked whenever a throttle
sleep occurred: starting from `last_request_time = 0`, a call at time 1/2
sleeps for 1/2, invokes the capability at time 1, yet stores 1/2 — not the
invocation moment 1 — in `last_request_time`. -/
theorem rate_limit_stores_presleep_time :
    (gemini_request (ServerState.mk [] 0) ((1 : ℚ)/2) (.success "ok")
      "Round start initiated").sleptFor = 1/2 ∧
    List.map GeminiCall.callTime (gemini_request (ServerState.mk [] 0) ((1 : ℚ)/2)
      (.success "ok") "Round start initiated").geminiCalls = [1] ∧
    (gemini_request (ServerState.mk [] 0) ((1 : ℚ)/2) (.success "ok")
      "Round start initiated").finalState.last_request_time = 1/2 ∧
    ¬((gemini_request (ServerState.mk [] 0) ((1 : ℚ)/2) (.success "ok")
      "Round start initiated").finalState.last_request_time = 1) := by
  rw [gemini_request_roundStart_miss _ _ _ _ (by decide) (by decide),
    roundStartApiCall_success]
  refine ⟨?_, ?_, rfl, by norm_num⟩
  · show sleepNeeded ((1 : ℚ)/2 - (ServerState.mk [] 0).last_request_time) = 1/2
    exact sleepNeeded_half_of_half
  · show [(1 : ℚ)/2 + sleepNeeded ((1 : ℚ)/2 - (ServerState.mk [] 0).last_request_time)] = [1]
    rw [show (ServerState.mk [] 0).last_request_time = 0 from rfl, sleepNeeded_half_of_half]
    norm_num

/-- C3 (amended): on the round-start path with no fresh cache entry, the
dispatcher computes elapsed = now - lastCallTimestamp, sleeps for
(1 second - elapsed) exactly when elapsed is under 1 second (else not at
all), and then sets the shared lastCallTimestamp unconditionally — whether or
not a sleep occurred — to the time captured when elapsed was computed (the
pre-sleep `now`); the completion capability is invoked at now plus the slept
duration, so the stored timestamp equals the invocation moment only when no
sleep occurred. -/
theorem rate_limiter_sleeps_then_stores_presleep_now (st : ServerState) (now : ℚ)
    (o : GeminiResult) (txt : String)
    (h3 : pyStartswith (pyStrip txt) "Round start initiated" = true)
    (hmiss : isCacheMiss st now (pyStrip txt)) :
    ((now - st.last_request_time < REQUEST_LIMIT_SECONDS →
        (gemini_request st now o txt).sleptFor =
          REQUEST_LIMIT_SECONDS - (now - st.last_request_time)) ∧
     (REQUEST_LIMIT_SECONDS ≤ now - st.last_request_time →
        (gemini_request st now o txt).sleptFor = 0)) ∧
    (gemini_request st now o txt).finalState.last_request_time = now ∧
    List.map GeminiCall.callTime (gemini_request st now o txt).geminiCalls =
      [now + (gemini_request st now o txt).sleptFor] := by
  rw [gemini_request_roundStart_miss st now o txt h3 hmiss]
  cases o with
  | success t =>
    rw [roundStartApiCall_success]
    refine ⟨⟨?_, ?_⟩, rfl, rfl⟩
    · intro h
      show sleepNeeded (now - st.last_request_time) =
        REQUEST_LIMIT_SECONDS - (now - st.last_request_time)
      unfold sleepNeeded
      rw [if_pos h]
    · intro h
      show sleepNeeded (now - st.last_request_time) = 0
      unfold sleepNeeded
      rw [if_neg (not_lt.mpr h)]
  | failure =>
    rw [roundStartApiCall_failure]
    refine ⟨⟨?_, ?_⟩, rfl, rfl⟩
    · intro h
      show sleepNeeded (now - st.last_request_time) =
        REQUEST_LIMIT_SECONDS - (now - st.last_request_time)
      unfold sleepNeeded
      rw [if_pos h]
    · intro h
      show sleepNeeded (now - st.last_request_time) = 0
      unfold sleepNeeded
      rw [if_neg (not_lt.mpr h)]

theorem rate_limiter_sleeps_then_stores_presleep_now_witness :
    (pyStartswith (pyStrip "Round start initiated") "Round start initiated" = true) ∧
    isCacheMiss (ServerState.mk [] 0) 0 (pyStrip "Round start initiated") ∧
    ((((0 : ℚ) - (ServerState.mk [] 0).last_request_time < REQUEST_LIMIT_SECONDS →
        (gemini_request (ServerState.mk [] 0) 0 (.success "x")
          "Round start initiated").sleptFor =
          REQUEST_LIMIT_SECONDS - ((0 : ℚ) - (ServerState.mk [] 0).last_request_time)) ∧
      (REQUEST_LIMIT_SECONDS ≤ (0 : ℚ) - (ServerState.mk [] 0).last_request_time →
        (gemini_request (ServerState.mk [] 0) 0 (.success "x")
          "Round start initiated").sleptFor = 0)) ∧
     (gemini_request (ServerState.mk [] 0) 0 (.success "x")
        "Round start initiated").finalState.last_request_time = 0 ∧
     List.map GeminiCall.callTime (gemini_request (ServerState.mk [] 0) 0 (.success "x")
        "Round start initiated").geminiCalls =
       [0 + (gemini_request (ServerState.mk [] 0) 0 (.success "x")
          "Round start initiated").sleptFor]) :=
  ⟨by decide, by decide,
   rate_limiter_sleeps_then_stores_presleep_now (ServerState.mk [] 0) 0 (.success "x")
     "Round start initiated" (by decide) (by decide)⟩

/-- C4: a concrete sequential failing run of the throttle. Starting from
`last_request_time = 0`, a first round-start call at time 1/2 sleeps 1/2 and
invokes the capability at time 1 (its return time), but records 1/2 as the
last-request timestamp; a second round-start call with a different cache key,
issued back-to-back at time 1 (the moment the first returned), computes
elapsed = 1/2, sleeps 1/2 and invokes the capability at time 3/2.  The two
invocations are 1/2 second apart — strictly less than the required
`REQUEST_LIMIT_SECONDS` spacing of 1 second. -/
theorem throttle_spacing_violated_back_to_back :
    List.map GeminiCall.callTime (gemini_request (ServerState.mk [] 0) ((1 : ℚ)/2)
      (.success "A") "Round start initiated alpha").geminiCalls = [1] ∧
    (gemini_request (ServerState.mk [] 0) ((1 : ℚ)/2) (.success "A")
      "Round start initiated alpha").endTime = 1 ∧
    List.map GeminiCall.callTime (gemini_request
      (gemini_request (ServerState.mk [] 0) ((1 : ℚ)/2) (.success "A")
        "Round start initiated alpha").finalState 1 (.success "B")
      "Round start initiated beta").geminiCalls = [3/2] ∧
    ((3 : ℚ)/2 - 1 < REQUEST_LIMIT_SECONDS) := by
  have h1 : gemini_request (ServerState.mk [] 0) ((1 : ℚ)/2) (.success "A")
      "Round start initiated alpha" =
      DispatchResult.mk "A" 200
        (ServerState.mk [("Round start initiated alpha", CacheEntry.mk "A" 1)] (1/2))
        [GeminiCall.mk round_start_system_prompt "Round start initiated alpha" (25/100) 1]
        (1/2) 1 := by
    rw [gemini_request_roundStart_miss _ _ _ _ (by decide) (by decide),
      roundStartApiCall_success,
      show pyStrip "A" = "A" from rfl,
      show pyStrip "Round start initiated alpha" = "Round start initiated alpha" from rfl,
      show (ServerState.mk [] 0).last_request_time = 0 from rfl,
      sleepNeeded_half_of_half]
    norm_num [cacheSet]
  have h2 : gemini_request
      (ServerState.mk [("Round start initiated alpha", CacheEntry.mk "A" 1)] (1/2)) 1
      (.success "B") "Round start initiated beta" =
      DispatchResult.mk "B" 200
        (ServerState.mk [("Round start initiated alpha", CacheEntry.mk "A" 1),
          ("Round start initiated beta", CacheEntry.mk "B" (3/2))] 1)
        [GeminiCall.mk round_start_system_prompt "Round start initiated beta" (25/100) (3/2)]
        (1/2) (3/2) := by
    rw [gemini_request_roundStart_miss _ _ _ _ (by decide) (by decide),
      roundStartApiCall_success,
      show pyStrip "B" = "B" from rfl,
      show pyStrip "Round start initiated beta" = "Round start initiated beta" from rfl,
      show (ServerState.mk [("Round start initiated alpha", CacheEntry.mk "A" 1)]
        (1/2)).last_request_time = (1 : ℚ)/2 from rfl,
      sleepNeeded_half_of_one_sub_half]
    norm_num [cacheSet]
    decide
  rw [h1]
  refine ⟨rfl, rfl, ?_, by norm_num [REQUEST_LIMIT_SECONDS]⟩
  rw [show (DispatchResult.mk "A" 200
    (ServerState.mk [("Round start initiated alpha", CacheEntry.mk "A" 1)] (1/2))
    [GeminiCall.mk round_start_system_prompt "Round start initiated alpha" (25/100) 1]
    (1/2) 1).finalState =
    ServerState.mk [("Round start initiated alpha", CacheEntry.mk "A" 1)] (1/2) from rfl, h2]
  rfl
